import Mathlib

/-!
Verification of the sphere form-factor kernel (src/sasmodels/models/sphere.c).

The kernel consists of three C functions, `form_volume`, `Iq` and `Fq`,
built on two shared library primitives, `sphere_volume` and `sas_3j1x_x`,
and on the library helper `sphere_form`.  Only `sphere.c` is in the
repository snapshot; the three library functions are modelled from the
specification.  C `double` arithmetic is embedded as real arithmetic;
for the error-handling claim a separate IEEE-like value type `FVal`
with explicit NaN and signed-infinity elements is used.
-/

namespace Sphere

/-- Modelled from the spec: the shared geometry primitive `sphere_volume`
(its C source is not part of the snapshot; only its caller is).
Spec §4.1: the volume of a sphere of the given radius, `(4/3)·π·radius³`. -/
noncomputable def sphere_volume (radius : ℝ) : ℝ :=
  4 / 3 * Real.pi * radius ^ 3

/-- Modelled from the spec: the shared numerical primitive `sas_3j1x_x`
(its C source is not part of the snapshot; only its caller is).
Spec §2/§4.3b: the normalized spherical Bessel ratio `3·j1(x)/x`,
i.e. `3·(sin x − x·cos x)/x³` for `x ≠ 0`, with the removable
singularity at `x = 0` filled with its limiting value `1`
(spec §7: `sas_3j1x_x(0) == 1` exactly). -/
noncomputable def sas_3j1x_x (x : ℝ) : ℝ :=
  if x = 0 then 1 else 3 * (Real.sin x - x * Real.cos x) / x ^ 3

/-- Modelled from the spec: the library helper `sphere_form`
(its C source is not part of the snapshot; only its caller `Iq` is).
Spec §4.2: the scattered intensity at a single `q`, equal to what the
amplitude/moment evaluator reports as its second output `F2`;
spec §3: `contrast² · volume² · sas_3j1x_x(q·radius)²` scaled by the
same fixed `1e-2` unit-conversion constant as the amplitude. -/
noncomputable def sphere_form (q radius sld solvent_sld : ℝ) : ℝ :=
  (1e-2 * (sld - solvent_sld) * sphere_volume radius * sas_3j1x_x (q * radius)) ^ 2

/-- Embedding of `form_volume` from src/sasmodels/models/sphere.c:
`return sphere_volume(radius);`. -/
noncomputable def form_volume (radius : ℝ) : ℝ :=
  sphere_volume radius

/-- Embedding of `Iq` from src/sasmodels/models/sphere.c:
`return sphere_form(q, radius, sld, sld_solvent);`. -/
noncomputable def Iq (q sld sld_solvent radius : ℝ) : ℝ :=
  sphere_form q radius sld sld_solvent

/-- Embedding of `Fq` from src/sasmodels/models/sphere.c.  The two C
out-parameters `*F1` and `*F2` are returned as a pair `(F1, F2)`:
`fq = sas_3j1x_x(q*radius)`, `contrast = sld - solvent_sld`,
`form = 1e-2 * contrast * sphere_volume(radius) * fq`,
`*F1 = form`, `*F2 = form*form`. -/
noncomputable def Fq (q sld solvent_sld radius : ℝ) : ℝ × ℝ :=
  let fq := sas_3j1x_x (q * radius)
  let contrast := sld - solvent_sld
  let form := 1e-2 * contrast * sphere_volume radius * fq
  (form, form * form)

/-- An addressed store of double values, modelling the caller-provided
memory that holds the two out-parameters `*F1` and `*F2` of the C
function `Fq`. -/
def Mem : Type := ℕ → ℝ

/-- Embedding of `Fq` from src/sasmodels/models/sphere.c as it acts on
an addressed store: the kernel computes `form` from its arguments alone
and then performs exactly two writes, `*F1 = form` followed by
`*F2 = form*form`; every other cell of the store is untouched. -/
noncomputable def Fq_store (q sld solvent_sld radius : ℝ)
    (pF1 pF2 : ℕ) (m : Mem) : Mem :=
  let fq := sas_3j1x_x (q * radius)
  let contrast := sld - solvent_sld
  let form := 1e-2 * contrast * sphere_volume radius * fq
  Function.update (Function.update m pF1 form) pF2 (form * form)

/-- An IEEE-754-style double value: a finite value (idealized as a real
number), a signed infinity (`true` = negative), or NaN.  Used to state
the propagation of non-finite inputs through the kernel. -/
inductive FVal : Type where
  | nan : FVal
  | inf : Bool → FVal
  | fin : ℝ → FVal

namespace FVal

/-- The value is finite (neither NaN nor an infinity). -/
def finite : FVal → Prop
  | fin _ => True
  | inf _ => False
  | nan => False

/-- IEEE-754 multiplication on `FVal`: NaN is absorbing, `0 · ∞ = NaN`,
infinities multiply with the sign rule, finite values multiply exactly. -/
noncomputable def mul : FVal → FVal → FVal
  | nan, _ => nan
  | inf _, nan => nan
  | fin _, nan => nan
  | inf s, inf t => inf (Bool.xor s t)
  | inf s, fin y => if y = 0 then nan else if y < 0 then inf (!s) else inf s
  | fin x, inf t => if x = 0 then nan else if x < 0 then inf (!t) else inf t
  | fin x, fin y => fin (x * y)

/-- IEEE-754 subtraction on `FVal`: NaN is absorbing, `∞ − ∞` of equal
signs is NaN, an infinity dominates a finite value, finite values
subtract exactly. -/
noncomputable def sub : FVal → FVal → FVal
  | nan, _ => nan
  | inf _, nan => nan
  | fin _, nan => nan
  | inf s, inf t => if s = t then nan else inf s
  | inf s, fin _ => inf s
  | fin _, inf t => inf (!t)
  | fin x, fin y => fin (x - y)

end FVal

/-- Modelled from the spec: the IEEE-arithmetic view of the missing
library primitive `sphere_volume`, `(4/3)·π · radius·radius·radius`
evaluated with IEEE multiplication, so NaN and infinities propagate. -/
noncomputable def sphere_volume_f (radius : FVal) : FVal :=
  FVal.mul (FVal.fin (4 / 3 * Real.pi)) (FVal.mul (FVal.mul radius radius) radius)

/-- Modelled from the spec: the IEEE-arithmetic view of the missing
library primitive `sas_3j1x_x`.  On a finite argument it agrees with
the real-valued model; its closed form evaluates `sin` and `cos`,
which under IEEE rules yield NaN at `±∞`, and NaN propagates. -/
noncomputable def sas_3j1x_x_f : FVal → FVal
  | FVal.fin x => FVal.fin (sas_3j1x_x x)
  | _ => FVal.nan

/-- Modelled from the spec: the IEEE-arithmetic view of the missing
library helper `sphere_form` (the square of the same `1e-2`-scaled
contrast·volume·Bessel product that `Fq` computes). -/
noncomputable def sphere_form_f (q radius sld solvent_sld : FVal) : FVal :=
  let fq := sas_3j1x_x_f (FVal.mul q radius)
  let contrast := FVal.sub sld solvent_sld
  let form := FVal.mul (FVal.mul (FVal.mul (FVal.fin 1e-2) contrast)
    (sphere_volume_f radius)) fq
  FVal.mul form form

/-- Embedding of `form_volume` from src/sasmodels/models/sphere.c over
IEEE-style values. -/
noncomputable def form_volume_f (radius : FVal) : FVal :=
  sphere_volume_f radius

/-- Embedding of `Iq` from src/sasmodels/models/sphere.c over IEEE-style
values. -/
noncomputable def Iq_f (q sld sld_solvent radius : FVal) : FVal :=
  sphere_form_f q radius sld sld_solvent

/-- Embedding of `Fq` from src/sasmodels/models/sphere.c over IEEE-style
values, with the same sequence of operations as the C body. -/
noncomputable def Fq_f (q sld solvent_sld radius : FVal) : FVal × FVal :=
  let fq := sas_3j1x_x_f (FVal.mul q radius)
  let contrast := FVal.sub sld solvent_sld
  let form := FVal.mul (FVal.mul (FVal.mul (FVal.fin 1e-2) contrast)
    (sphere_volume_f radius)) fq
  (form, FVal.mul form form)

end Sphere

namespace Sphere

namespace FVal

@[simp] theorem mul_nan_left (b : FVal) : mul nan b = nan := rfl

@[simp] theorem mul_nan_right (a : FVal) : mul a nan = nan := by
  cases a <;> rfl

@[simp] theorem sub_nan_left (b : FVal) : sub nan b = nan := rfl

@[simp] theorem sub_nan_right (a : FVal) : sub a nan = nan := by
  cases a <;> rfl

theorem mul_not_finite_left {a : FVal} (h : ¬ finite a) (b : FVal) :
    ¬ finite (mul a b) := by
  cases a with
  | nan => simp [mul, finite]
  | inf s =>
    cases b with
    | nan => simp [mul, finite]
    | inf t => simp [mul, finite]
    | fin y => simp only [mul]; split <;> [simp [finite]; split <;> simp [finite]]
  | fin x => exact absurd trivial h

theorem mul_not_finite_right (a : FVal) {b : FVal} (h : ¬ finite b) :
    ¬ finite (mul a b) := by
  cases b with
  | nan => simp [finite]
  | inf t =>
    cases a with
    | nan => simp [mul, finite]
    | inf s => simp [mul, finite]
    | fin x => simp only [mul]; split <;> [simp [finite]; split <;> simp [finite]]
  | fin y => exact absurd trivial h

theorem sub_not_finite_left {a : FVal} (h : ¬ finite a) (b : FVal) :
    ¬ finite (sub a b) := by
  cases a with
  | nan => simp [sub, finite]
  | inf s =>
    cases b with
    | nan => simp [sub, finite]
    | inf t => simp only [sub]; split <;> simp [finite]
    | fin y => simp [sub, finite]
  | fin x => exact absurd trivial h

theorem sub_not_finite_right (a : FVal) {b : FVal} (h : ¬ finite b) :
    ¬ finite (sub a b) := by
  cases b with
  | nan => simp [finite]
  | inf t =>
    cases a with
    | nan => simp [sub, finite]
    | inf s => simp only [sub]; split <;> simp [finite]
    | fin x => simp [sub, finite]
  | fin y => exact absurd trivial h

end FVal

@[simp] theorem sas_3j1x_x_f_nan : sas_3j1x_x_f FVal.nan = FVal.nan := rfl

theorem sas_3j1x_x_f_of_not_finite {x : FVal} (h : ¬ FVal.finite x) :
    sas_3j1x_x_f x = FVal.nan := by
  cases x with
  | nan => rfl
  | inf s => rfl
  | fin v => exact absurd trivial h

theorem sphere_volume_f_not_finite {r : FVal} (h : ¬ FVal.finite r) :
    ¬ FVal.finite (sphere_volume_f r) :=
  FVal.mul_not_finite_right _
    (FVal.mul_not_finite_left (FVal.mul_not_finite_left h r) r)

theorem Fq_f_fst_not_finite {a b c d : FVal}
    (h : ¬ FVal.finite a ∨ ¬ FVal.finite b ∨ ¬ FVal.finite c ∨ ¬ FVal.finite d) :
    ¬ FVal.finite (Fq_f a b c d).1 := by
  show ¬ FVal.finite (FVal.mul (FVal.mul (FVal.mul (FVal.fin 1e-2) (FVal.sub b c))
    (sphere_volume_f d)) (sas_3j1x_x_f (FVal.mul a d)))
  rcases h with h | h | h | h
  · rw [sas_3j1x_x_f_of_not_finite (FVal.mul_not_finite_left h d)]
    exact FVal.mul_not_finite_right _ (by simp [FVal.finite])
  · exact FVal.mul_not_finite_left
      (FVal.mul_not_finite_left (FVal.mul_not_finite_right _ (FVal.sub_not_finite_left h c)) _) _
  · exact FVal.mul_not_finite_left
      (FVal.mul_not_finite_left (FVal.mul_not_finite_right _ (FVal.sub_not_finite_right b h)) _) _
  · exact FVal.mul_not_finite_left
      (FVal.mul_not_finite_right _ (sphere_volume_f_not_finite h)) _

/-- C3: for every input, the two outputs of `Fq` satisfy `F2 = F1 * F1`. -/
theorem Fq_snd_eq_fst_mul_fst (q sld solvent_sld radius : ℝ) :
    (Fq q sld solvent_sld radius).2 =
      (Fq q sld solvent_sld radius).1 * (Fq q sld solvent_sld radius).1 := by
  simp [Fq]

/-- C2: for every `q ≥ 0`, `sld`, `solvent_sld` and `radius > 0`, `Fq`
writes `F1 = 1e-2 · (sld − solvent_sld) · sphere_volume radius ·
sas_3j1x_x (q·radius)` to its first output and `F2 = F1 · F1`
to its second output. -/
theorem Fq_formula (q sld solvent_sld radius : ℝ)
    (hq : 0 ≤ q) (hr : 0 < radius) :
    (Fq q sld solvent_sld radius).1 =
      1e-2 * (sld - solvent_sld) * sphere_volume radius * sas_3j1x_x (q * radius) ∧
    (Fq q sld solvent_sld radius).2 =
      (1e-2 * (sld - solvent_sld) * sphere_volume radius * sas_3j1x_x (q * radius)) *
      (1e-2 * (sld - solvent_sld) * sphere_volume radius * sas_3j1x_x (q * radius)) := by
  constructor <;> simp [Fq]

/-- Witness for C2 at `q = 1`, `sld = 2`, `solvent_sld = 1`, `radius = 3`. -/
theorem Fq_formula_witness :
    (0 : ℝ) ≤ 1 ∧ (0 : ℝ) < 3 ∧
    ((Fq 1 2 1 3).1 = 1e-2 * ((2 : ℝ) - 1) * sphere_volume 3 * sas_3j1x_x (1 * 3) ∧
     (Fq 1 2 1 3).2 =
       (1e-2 * ((2 : ℝ) - 1) * sphere_volume 3 * sas_3j1x_x (1 * 3)) *
       (1e-2 * ((2 : ℝ) - 1) * sphere_volume 3 * sas_3j1x_x (1 * 3))) :=
  ⟨by norm_num, by norm_num, Fq_formula 1 2 1 3 (by norm_num) (by norm_num)⟩

/-- C1: for every `q ≥ 0`, `sld`, `sld_solvent` and `radius > 0`, the
intensity evaluator `Iq` returns the same value as the second output
`F2` of the amplitude/moment evaluator `Fq` at the same arguments. -/
theorem Iq_eq_Fq_snd (q sld sld_solvent radius : ℝ)
    (hq : 0 ≤ q) (hr : 0 < radius) :
    Iq q sld sld_solvent radius = (Fq q sld sld_solvent radius).2 := by
  simp [Iq, sphere_form, Fq]
  ring

/-- Witness for C1 at `q = 1`, `sld = 2`, `sld_solvent = 5`, `radius = 3`. -/
theorem Iq_eq_Fq_snd_witness :
    (0 : ℝ) ≤ 1 ∧ (0 : ℝ) < 3 ∧ Iq 1 2 5 3 = (Fq 1 2 5 3).2 :=
  ⟨by norm_num, by norm_num, Iq_eq_Fq_snd 1 2 5 3 (by norm_num) (by norm_num)⟩

/-- C4: for every `radius > 0`, `form_volume radius` equals
`(4/3)·π·radius³`, which is the value of the shared geometry primitive
`sphere_volume radius`; it depends on no other argument. -/
theorem form_volume_formula (radius : ℝ) (hr : 0 < radius) :
    form_volume radius = 4 / 3 * Real.pi * radius ^ 3 ∧
    form_volume radius = sphere_volume radius :=
  ⟨rfl, rfl⟩

/-- Witness for C4 at `radius = 2`. -/
theorem form_volume_formula_witness :
    (0 : ℝ) < 2 ∧
    (form_volume 2 = 4 / 3 * Real.pi * (2 : ℝ) ^ 3 ∧
     form_volume 2 = sphere_volume 2) :=
  ⟨by norm_num, form_volume_formula 2 (by norm_num)⟩

/-- C5: at `q = 0`, for every `sld`, `solvent_sld` and `radius > 0`,
`sas_3j1x_x 0 = 1` exactly, so `Fq` produces
`F1 = 1e-2 · (sld − solvent_sld) · sphere_volume radius`, with no
dependence on `q`, and `F2` is its square. -/
theorem Fq_at_q_zero (sld solvent_sld radius : ℝ) (hr : 0 < radius) :
    sas_3j1x_x 0 = 1 ∧
    (Fq 0 sld solvent_sld radius).1 =
      1e-2 * (sld - solvent_sld) * sphere_volume radius ∧
    (Fq 0 sld solvent_sld radius).2 =
      (1e-2 * (sld - solvent_sld) * sphere_volume radius) *
      (1e-2 * (sld - solvent_sld) * sphere_volume radius) := by
  refine ⟨by simp [sas_3j1x_x], ?_, ?_⟩ <;> simp [Fq, sas_3j1x_x]

/-- Witness for C5 at `sld = 4`, `solvent_sld = 1`, `radius = 2`. -/
theorem Fq_at_q_zero_witness :
    (0 : ℝ) < 2 ∧
    (sas_3j1x_x 0 = 1 ∧
     (Fq 0 4 1 2).1 = 1e-2 * ((4 : ℝ) - 1) * sphere_volume 2 ∧
     (Fq 0 4 1 2).2 =
       (1e-2 * ((4 : ℝ) - 1) * sphere_volume 2) *
       (1e-2 * ((4 : ℝ) - 1) * sphere_volume 2)) :=
  ⟨by norm_num, Fq_at_q_zero 4 1 2 (by norm_num)⟩

/-- C6: for every `q ≥ 0`, `sld`, `sld_solvent` and `radius > 0`,
swapping the two scattering-length densities negates the first output
of `Fq` and leaves its second output and the value of `Iq` unchanged. -/
theorem Fq_Iq_swap_sld (q sld sld_solvent radius : ℝ)
    (hq : 0 ≤ q) (hr : 0 < radius) :
    (Fq q sld_solvent sld radius).1 = -(Fq q sld sld_solvent radius).1 ∧
    (Fq q sld_solvent sld radius).2 = (Fq q sld sld_solvent radius).2 ∧
    Iq q sld_solvent sld radius = Iq q sld sld_solvent radius := by
  refine ⟨?_, ?_, ?_⟩ <;> simp [Fq, Iq, sphere_form] <;> ring

/-- Witness for C6 at `q = 1`, `sld = 2`, `sld_solvent = 7`, `radius = 3`. -/
theorem Fq_Iq_swap_sld_witness :
    (0 : ℝ) ≤ 1 ∧ (0 : ℝ) < 3 ∧
    ((Fq 1 7 2 3).1 = -(Fq 1 2 7 3).1 ∧
     (Fq 1 7 2 3).2 = (Fq 1 2 7 3).2 ∧
     Iq 1 7 2 3 = Iq 1 2 7 3) :=
  ⟨by norm_num, by norm_num, Fq_Iq_swap_sld 1 2 7 3 (by norm_num) (by norm_num)⟩

/-- C7: for every `q ≥ 0`, `sld`, `solvent_sld` and `radius > 0`,
replacing `radius` by `2·radius` and `q` by `q/2` (so that `q·radius`
is unchanged, and `sas_3j1x_x` is applied to the same product)
multiplies `form_volume` by 8 and the first output of `Fq` by 8. -/
theorem form_volume_Fq_scale (q sld solvent_sld radius : ℝ)
    (hq : 0 ≤ q) (hr : 0 < radius) :
    form_volume (2 * radius) = 8 * form_volume radius ∧
    (Fq (q / 2) sld solvent_sld (2 * radius)).1 =
      8 * (Fq q sld solvent_sld radius).1 := by
  have hx : q / 2 * (2 * radius) = q * radius := by ring
  constructor
  · simp [form_volume, sphere_volume]; ring
  · simp [Fq, hx, sphere_volume]; ring

/-- Witness for C7 at `q = 1`, `sld = 2`, `solvent_sld = 5`, `radius = 3`. -/
theorem form_volume_Fq_scale_witness :
    (0 : ℝ) ≤ 1 ∧ (0 : ℝ) < 3 ∧
    (form_volume (2 * 3) = 8 * form_volume 3 ∧
     (Fq ((1 : ℝ) / 2) 2 5 (2 * 3)).1 = 8 * (Fq 1 2 5 3).1) :=
  ⟨by norm_num, by norm_num, form_volume_Fq_scale 1 2 5 3 (by norm_num) (by norm_num)⟩

/-- C10: zero contrast yields zero amplitude: for every `q`, `sld` and
`radius` (every value of the real embedding being finite), calling `Fq`
with equal scattering-length densities produces `F1 = 0` and `F2 = 0`. -/
theorem Fq_zero_contrast (q sld radius : ℝ) :
    (Fq q sld sld radius).1 = 0 ∧ (Fq q sld sld radius).2 = 0 := by
  constructor <;> simp [Fq]

/-- C8: a call to `Fq` modifies nothing in the caller's store except the
two output locations, and the values written there are exactly the pure
pair `Fq q sld solvent_sld radius`, which mentions neither the prior
store `m` nor any other state: the outputs depend only on the four
arguments, and every call is an independent pure evaluation. -/
theorem Fq_store_frame (q sld solvent_sld radius : ℝ) (pF1 pF2 : ℕ)
    (m : Mem) (a : ℕ)
    (ha1 : a ≠ pF1) (ha2 : a ≠ pF2) (hp : pF1 ≠ pF2) :
    Fq_store q sld solvent_sld radius pF1 pF2 m a = m a ∧
    Fq_store q sld solvent_sld radius pF1 pF2 m pF1 =
      (Fq q sld solvent_sld radius).1 ∧
    Fq_store q sld solvent_sld radius pF1 pF2 m pF2 =
      (Fq q sld solvent_sld radius).2 := by
  refine ⟨?_, ?_, ?_⟩
  · show Function.update (Function.update m pF1 _) pF2 _ a = m a
    rw [Function.update_noteq ha2, Function.update_noteq ha1]
  · show Function.update (Function.update m pF1 _) pF2 _ pF1 = _
    rw [Function.update_noteq hp, Function.update_same]
    simp [Fq]
  · show Function.update (Function.update m pF1 _) pF2 _ pF2 = _
    rw [Function.update_same]
    simp [Fq]

/-- Witness for C8 with output locations 0 and 1, spectator location 2,
and a store initialized to the constant 5. -/
theorem Fq_store_frame_witness :
    (2 : ℕ) ≠ 0 ∧ (2 : ℕ) ≠ 1 ∧ (0 : ℕ) ≠ 1 ∧
    (Fq_store 1 2 5 3 0 1 (fun _ => 5) 2 = 5 ∧
     Fq_store 1 2 5 3 0 1 (fun _ => 5) 0 = (Fq 1 2 5 3).1 ∧
     Fq_store 1 2 5 3 0 1 (fun _ => 5) 1 = (Fq 1 2 5 3).2) :=
  ⟨by decide, by decide, by decide,
   Fq_store_frame 1 2 5 3 0 1 (fun _ => 5) 2 (by decide) (by decide) (by decide)⟩

/-- C9: totality and NaN/Inf propagation.  On every quadruple of finite
arguments — negative `radius` and negative `q` included — `Fq`, `Iq`
and `form_volume` return plain values given by the same real-number
formulas, with no error, exception, or logging path (the embedded
functions land in the value type itself, not in an error monad).
If any argument is NaN, both outputs of `Fq` and the output of `Iq`
are NaN, and likewise `form_volume` of NaN is NaN.  If any argument is
non-finite (NaN or an infinity), no output is finite: non-finite
values propagate into the results instead of being trapped. -/
theorem kernel_total_no_trap (q sld solvent_sld radius : ℝ) (a b c d : FVal) :
    (Fq_f (FVal.fin q) (FVal.fin sld) (FVal.fin solvent_sld) (FVal.fin radius) =
       (FVal.fin (Fq q sld solvent_sld radius).1,
        FVal.fin (Fq q sld solvent_sld radius).2) ∧
     Iq_f (FVal.fin q) (FVal.fin sld) (FVal.fin solvent_sld) (FVal.fin radius) =
       FVal.fin (Iq q sld solvent_sld radius) ∧
     form_volume_f (FVal.fin radius) = FVal.fin (form_volume radius)) ∧
    ((a = FVal.nan ∨ b = FVal.nan ∨ c = FVal.nan ∨ d = FVal.nan) →
       Fq_f a b c d = (FVal.nan, FVal.nan) ∧ Iq_f a b c d = FVal.nan) ∧
    (d = FVal.nan → form_volume_f d = FVal.nan) ∧
    ((¬ FVal.finite a ∨ ¬ FVal.finite b ∨ ¬ FVal.finite c ∨ ¬ FVal.finite d) →
       ¬ FVal.finite (Fq_f a b c d).1 ∧ ¬ FVal.finite (Fq_f a b c d).2 ∧
       ¬ FVal.finite (Iq_f a b c d)) ∧
    (¬ FVal.finite d → ¬ FVal.finite (form_volume_f d)) := by
  refine ⟨⟨?_, ?_, ?_⟩, ?_, ?_, ?_, ?_⟩
  · simp only [Fq_f, Fq, FVal.mul, FVal.sub, sas_3j1x_x_f, sphere_volume_f,
      sphere_volume, Prod.mk.injEq, FVal.fin.injEq]
    constructor <;> ring
  · simp only [Iq_f, sphere_form_f, Iq, sphere_form, FVal.mul, FVal.sub,
      sas_3j1x_x_f, sphere_volume_f, sphere_volume, FVal.fin.injEq]
    ring
  · simp only [form_volume_f, sphere_volume_f, form_volume, sphere_volume,
      FVal.mul, FVal.fin.injEq]
    ring
  · rintro (rfl | rfl | rfl | rfl) <;>
      simp [Fq_f, Iq_f, sphere_form_f, sphere_volume_f]
  · rintro rfl
    simp [form_volume_f, sphere_volume_f]
  · intro h
    have h1 : ¬ FVal.finite (Fq_f a b c d).1 := Fq_f_fst_not_finite h
    refine ⟨h1, ?_, ?_⟩
    · exact FVal.mul_not_finite_left h1 _
    · exact FVal.mul_not_finite_left h1 _
  · intro h
    exact sphere_volume_f_not_finite h

/-- Witness for C9: NaN in the `q` slot propagates to both outputs of
`Fq` and to `Iq`, and a positive infinity in the `q` slot yields
non-finite outputs. -/
theorem kernel_total_no_trap_witness :
    Fq_f FVal.nan (FVal.fin 2) (FVal.fin 5) (FVal.fin 3) = (FVal.nan, FVal.nan) ∧
    Iq_f FVal.nan (FVal.fin 2) (FVal.fin 5) (FVal.fin 3) = FVal.nan ∧
    ¬ FVal.finite (Fq_f (FVal.inf false) (FVal.fin 2) (FVal.fin 5) (FVal.fin 3)).1 :=
  ⟨((kernel_total_no_trap 0 0 0 0 FVal.nan (FVal.fin 2) (FVal.fin 5)
      (FVal.fin 3)).2.1 (Or.inl rfl)).1,
   ((kernel_total_no_trap 0 0 0 0 FVal.nan (FVal.fin 2) (FVal.fin 5)
      (FVal.fin 3)).2.1 (Or.inl rfl)).2,
   ((kernel_total_no_trap 0 0 0 0 (FVal.inf false) (FVal.fin 2) (FVal.fin 5)
      (FVal.fin 3)).2.2.2.1 (Or.inl (by simp [FVal.finite]))).1⟩

end Sphere
